import Mathlib

/-!
Verification development for the torax implicit transport solver configuration
and derived-quantity code.  Numeric values are embedded as rationals; time- and
rho-interpolated inputs are association lists of rational pairs.
-/

namespace Torax

/-- A time-interpolated scalar input: association list of (time, value). -/
abbrev TimeInput := List (ℚ × ℚ)

/-- A time-and-rho interpolated input: association list of
(time, association list of (rho, value)).  Mirrors
interpolated_param.InterpolatedVarTimeRhoInput in its dict form. -/
abbrev TimeRhoInput := List (ℚ × List (ℚ × ℚ))

/-- Modelled from the spec: a field used as a derivable outer boundary source
"must carry an explicit profile value at r=1".  The helper
interpolated_param.rhonorm1_defined_in_timerhoinput is not under src; it checks
that every time slice of the time-rho input defines a value at rho = 1.0. -/
def rhonorm1_defined_in_timerhoinput (values : TimeRhoInput) : Bool :=
  values.all (fun tv => tv.2.any (fun rv => decide (rv.1 = 1)))

/-- Embedded from src/torax/config/profile_conditions.py, class
ProfileConditions.  Only the fields and flags the claims touch carry behavior;
all fields of the dataclass are kept to preserve the record shape. -/
structure ProfileConditions where
  Ip_tot : TimeInput
  Ti_bound_right : Option TimeInput
  Te_bound_right : Option TimeInput
  Ti : TimeRhoInput
  Te : TimeRhoInput
  psi : Option TimeRhoInput
  ne : TimeRhoInput
  normalize_to_nbar : Bool
  nbar : TimeInput
  ne_is_fGW : Bool
  ne_bound_right : Option TimeInput
  ne_bound_right_is_fGW : Bool
  ne_bound_right_is_absolute : Bool
  set_pedestal : TimeInput
  nu : ℚ
  initial_j_is_total_current : Bool
  initial_psi_from_j : Bool
  deriving Repr, DecidableEq

/-- Embedded from ProfileConditions._sanity_check_profile_boundary_conditions:
raises ValueError (here: Except.error) when the profile is not defined at
rho = 1.0. -/
def sanity_check_profile_boundary_conditions
    (values : TimeRhoInput) (value_name : String) : Except String Unit :=
  if rhonorm1_defined_in_timerhoinput values then Except.ok ()
  else Except.error
    ("As no right boundary condition was set for " ++ value_name ++
     ", the profile for " ++ value_name ++
     " must include a rho=1.0 boundary condition.")

/-- Embedded from ProfileConditions.__post_init__: for each of Ti, Te, ne, if
the corresponding right boundary condition is unset the profile must define a
value at rho = 1.0, checked at construction time in this order. -/
def post_init_check (pc : ProfileConditions) : Except String ProfileConditions := do
  if pc.Ti_bound_right.isNone then
    sanity_check_profile_boundary_conditions pc.Ti "Ti"
  if pc.Te_bound_right.isNone then
    sanity_check_profile_boundary_conditions pc.Te "Te"
  if pc.ne_bound_right.isNone then
    sanity_check_profile_boundary_conditions pc.ne "ne"
  return pc

/-- Embedded from geometry.Grid1D: a uniform 1-D mesh with nx cells of width
dx; face centers run from 0 to nx * dx. -/
structure Grid1D where
  nx : ℕ
  dx : ℚ
  deriving Repr, DecidableEq

/-- The face-center coordinates of a Grid1D: nx + 1 faces at i * dx. -/
def Grid1D.face_centers (mesh : Grid1D) : List ℚ :=
  (List.range (mesh.nx + 1)).map (fun i => (i : ℚ) * mesh.dx)

/-- The outermost face center, face_centers[-1]. -/
def Grid1D.face_centers_last (mesh : Grid1D) : ℚ :=
  (Grid1D.face_centers mesh).getLastD 0

/-- Modelled from the spec: piecewise-linear interpolation of an association
list of (coordinate, value) pairs at a query point, with constant
extrapolation outside the knot range (the numpy-style interpolation used by
interpolated_param, which is not under src). -/
def interp1 : List (ℚ × ℚ) → ℚ → ℚ
  | [], _ => 0
  | [(_, y0)], _ => y0
  | (x0, y0) :: (x1, y1) :: rest, x =>
    if x ≤ x0 then y0
    else if x ≤ x1 then y0 + (y1 - y0) * (x - x0) / (x1 - x0)
    else interp1 ((x1, y1) :: rest) x

/-- Modelled from the spec: config_args.get_interpolated_var_2d (not under
src) restricts a time-rho input to a fixed rho, interpolating each time slice
there; the result is a time-interpolated input. -/
def get_interpolated_var_2d (values : TimeRhoInput) (rho : ℚ) : TimeInput :=
  values.map (fun tv => (tv.1, interp1 tv.2 rho))

/-- Embedded from src/torax/config/profile_conditions.py, class
ProfileConditionsProvider: the provider record built by make_provider.
Boundary-condition fields hold the time series actually installed (either the
explicit one or the one derived from the profile at the outermost face
center). -/
structure ProfileConditionsProvider where
  runtime_params_config : ProfileConditions
  Ip_tot : TimeInput
  Ti_bound_right : TimeInput
  Te_bound_right : TimeInput
  Ti : TimeRhoInput
  Te : TimeRhoInput
  psi : Option TimeRhoInput
  ne : TimeRhoInput
  nbar : TimeInput
  ne_bound_right : TimeInput
  set_pedestal : TimeInput
  deriving Repr, DecidableEq

/-- Embedded from ProfileConditions.make_provider: requires a mesh (ValueError
when torax_mesh is None); when Te_bound_right / Ti_bound_right /
ne_bound_right is unset, derives the boundary time series from the profile at
the outermost face center; an explicit ne_bound_right wins and sets
ne_bound_right_is_absolute to True, while the derived path sets it to False
and copies ne_is_fGW into ne_bound_right_is_fGW. -/
def make_provider (pc : ProfileConditions) (torax_mesh : Option Grid1D) :
    Except String ProfileConditionsProvider :=
  match torax_mesh with
  | none => Except.error "torax_mesh is required for ProfileConditionsProvider."
  | some mesh =>
    let rho_last := mesh.face_centers_last
    let Te_bound : TimeInput :=
      match pc.Te_bound_right with
      | some b => b
      | none => get_interpolated_var_2d pc.Te rho_last
    let Ti_bound : TimeInput :=
      match pc.Ti_bound_right with
      | some b => b
      | none => get_interpolated_var_2d pc.Ti rho_last
    let ne_bound : TimeInput :=
      match pc.ne_bound_right with
      | some b => b
      | none => get_interpolated_var_2d pc.ne rho_last
    let pc_final : ProfileConditions :=
      match pc.ne_bound_right with
      | some _ => { pc with ne_bound_right_is_absolute := true }
      | none =>
        { pc with ne_bound_right_is_absolute := false,
                  ne_bound_right_is_fGW := pc.ne_is_fGW }
    Except.ok
      { runtime_params_config := pc_final
        Ip_tot := pc.Ip_tot
        Ti_bound_right := Ti_bound
        Te_bound_right := Te_bound
        Ti := pc.Ti
        Te := pc.Te
        psi := pc.psi
        ne := pc.ne
        nbar := pc.nbar
        ne_bound_right := ne_bound
        set_pedestal := pc.set_pedestal }

/-! ### Geometry and flux-derived quantities (q, s, jtot)

physics.calc_q_from_psi is not under src; the in-src reference implementation
in src/torax/tests/physics.py (PhysicsTest.test_calc_q_from_psi) is embedded
instead, and the other derived quantities are modelled from the spec. -/

/-- Geometry on the face grid: face arrays are total functions of the face
index (only indices 0..nx are meaningful).  Embedded from the geometry fields
used by src/torax/tests/physics.py: nx, drho_norm, Phib, rho_face_norm, plus
spec-modelled metric coefficients current_factor (the linear map from the
poloidal-flux face gradient to the enclosed-current profile) and spr (the
surface-area derivative used to turn the current profile into a density), and
the geometry-supplied flux profile psi_from_Ip_grad. -/
structure Geometry where
  nx : ℕ
  drho_norm : ℚ
  Phib : ℚ
  rho_face_norm : ℕ → ℚ
  current_factor : ℕ → ℚ
  spr : ℕ → ℚ
  psi_from_Ip_grad : ℕ → ℚ

/-- Embedded from the reference implementation in
src/torax/tests/physics.py (test_calc_q_from_psi): the rotational transform
iota on the face grid; at every face i >= 1 it is
|psi_face_grad[i] / (2 * Phib * rho_face_norm[i])|, and at the axis (face 0)
it is computed from the second face's gradient,
|psi_face_grad[1] / (2 * Phib * drho_norm)|. -/
def calc_iota_face (geo : Geometry) (psi_face_grad : ℕ → ℚ) : ℕ → ℚ :=
  fun i =>
    if i = 0 then |psi_face_grad 1 / (2 * geo.Phib * geo.drho_norm)|
    else |psi_face_grad i / (2 * geo.Phib * geo.rho_face_norm i)|

/-- Embedded from the reference implementation in
src/torax/tests/physics.py: averaging a face array to the cell grid. -/
def face_to_cell (face : ℕ → ℚ) : ℕ → ℚ :=
  fun i => (face (i + 1) + face i) / 2

/-- Embedded from the reference implementation in
src/torax/tests/physics.py (test_calc_q_from_psi): q = (1 / iota) scaled by
the q correction factor, on the face grid, together with its cell average. -/
def calc_q_from_psi (geo : Geometry) (psi_face_grad : ℕ → ℚ)
    (q_correction_factor : ℚ) : (ℕ → ℚ) × (ℕ → ℚ) :=
  let q := fun i => 1 / calc_iota_face geo psi_face_grad i * q_correction_factor
  (q, face_to_cell q)

/-- Modelled from the spec: magnetic shear is the "radial derivative of q,
normalized" (glossary); here the normalized forward-difference derivative of
the face-grid q profile, rho/q * dq/drho.  physics.calc_s_from_psi is not
under src. -/
def calc_s_from_psi (geo : Geometry) (psi_face_grad : ℕ → ℚ) : ℕ → ℚ :=
  fun i =>
    let q := (calc_q_from_psi geo psi_face_grad 1).1
    geo.rho_face_norm i * ((q (i + 1) - q i) / geo.drho_norm) / q i

/-- Modelled from the spec: the poloidal flux's "radial derivative encodes the
current density profile" (glossary); the enclosed-current profile on the face
grid is the flux face gradient scaled by the geometry's metric coefficient.
physics.calc_jtot_from_psi is not under src. -/
def calc_Ip_profile_face (geo : Geometry) (psi_face_grad : ℕ → ℚ) : ℕ → ℚ :=
  fun i => psi_face_grad i * geo.current_factor i

/-- Modelled from the spec: total current density jtot as the radial
derivative of the enclosed-current profile divided by the surface-area
derivative, returned together with the enclosed-current face profile
Ip_profile_face (the pair mirrors physics.calc_jtot_from_psi's outputs used
by src/torax/tests/physics.py). -/
def calc_jtot_from_psi (geo : Geometry) (psi_face_grad : ℕ → ℚ) :
    (ℕ → ℚ) × (ℕ → ℚ) :=
  (fun i =>
      (calc_Ip_profile_face geo psi_face_grad (i + 1) -
        calc_Ip_profile_face geo psi_face_grad i) /
        (geo.drho_norm * geo.spr i),
    calc_Ip_profile_face geo psi_face_grad)

/-- The geometry's own enclosed-current edge profile, computed from its own
flux profile (StandardGeometry stores Ip_profile_face consistently with
psi_from_Ip). -/
def Geometry.Ip_profile_face (geo : Geometry) : ℕ → ℚ :=
  calc_Ip_profile_face geo geo.psi_from_Ip_grad

/-- Modelled from the spec: when the total plasma current is taken from
runtime parameters (Ip_from_parameters), the reference flux profile is the
base profile rescaled so that the enclosed current at the outer face equals
the configured Ip_tot (in MA) converted to amperes (times 1e6), as asserted by
src/torax/tests/physics.py (test_calc_jtot_from_psi). -/
def psi_from_Ip_scaled (geo : Geometry) (base_grad : ℕ → ℚ) (Ip_tot : ℚ) :
    ℕ → ℚ :=
  fun i =>
    base_grad i * (Ip_tot * 1000000 / calc_Ip_profile_face geo base_grad geo.nx)

/-! ### Quasilinear (qualikiz-based) transport model

The transport model itself is not under src; the face-grid pipeline is
modelled from the spec's quasilinear base behavior ("compute local logarithmic
gradients of density/temperature/safety-factor on the face grid, normalize by
gyroBohm scaling, and apply a model-specific closure"), with the list shapes
matching the contract asserted by
src/torax/transport_model/tests/qualikiz_based_transport_model.py. -/

/-- Geometry data consumed by the transport model, with the face coordinate
array rho_face_norm as an explicit list (its length is the face-grid size). -/
structure TransportGeometry where
  nx : ℕ
  drho : ℚ
  rho_face_norm : List ℚ
  Rmaj : ℚ
  Rmin : ℚ
  B0 : ℚ
  deriving Repr, DecidableEq

/-- Cell-grid core profiles with their outer boundary values, plus the
derived face-grid safety factor and magnetic shear, as read by the transport
model. -/
structure CoreProfilesCell where
  temp_ion : List ℚ
  temp_el : List ℚ
  ne : List ℚ
  ni : List ℚ
  Ti_bound : ℚ
  Te_bound : ℚ
  ne_bound : ℚ
  ni_bound : ℚ
  q_face : List ℚ
  s_face : List ℚ
  deriving Repr, DecidableEq

/-- Transport runtime parameters embedded from the qualikiz-based
RuntimeParams fields exercised by the src test. -/
structure QlkRuntimeParams where
  coll_mult : ℚ
  avoid_big_negative_s : Bool
  q_sawtooth_proxy : Bool
  smag_alpha_correction : Bool
  deriving Repr, DecidableEq

/-- Face values of a cell-grid variable: the inner face copies the innermost
cell, interior faces average adjacent cells, the outer face takes the
boundary value (the fvm convention; the fvm code is not under src). -/
def face_values (cells : List ℚ) (bc : ℚ) : List ℚ :=
  match cells with
  | [] => [bc]
  | c :: cs => c :: (List.zipWith (fun a b => (a + b) / 2) (c :: cs) cs ++ [bc])

/-- Face gradient of a cell-grid variable: zero at the symmetry axis,
adjacent-cell differences at interior faces, boundary-value difference at the
outer face. -/
def face_grad_list (cells : List ℚ) (d : ℚ) (bc : ℚ) : List ℚ :=
  match cells with
  | [] => [0]
  | c :: cs =>
    0 :: (List.zipWith (fun a b => (b - a) / d) (c :: cs) cs ++
      [(bc - (c :: cs).getLastD 0) / (d / 2)])

/-- Normalized logarithmic gradient on the face grid: -Rmaj * grad(u) / u,
pointwise over the face arrays. -/
def norm_log_grad (cells : List ℚ) (d bc Rmaj : ℚ) : List ℚ :=
  List.zipWith (fun g u => -Rmaj * g / u) (face_grad_list cells d bc)
    (face_values cells bc)

/-- The prepared qualikiz model inputs: 1-D face-grid arrays plus the two
geometry scalars, mirroring the field list checked by the src test. -/
structure QualikizInputs where
  Zeff_face : List ℚ
  Ati : List ℚ
  Ate : List ℚ
  Ane : List ℚ
  Ani0 : List ℚ
  Ani1 : List ℚ
  q : List ℚ
  smag : List ℚ
  x : List ℚ
  Ti_Te : List ℚ
  log_nu_star_face : List ℚ
  normni : List ℚ
  chiGB : List ℚ
  Rmaj : ℚ
  Rmin : ℚ
  deriving Repr, DecidableEq

/-- Modelled from the spec: the quasilinear base preparation — logarithmic
gradients of temperatures and densities on the face grid, safety factor and
(possibly shear-corrected) magnetic shear, normalized radius, temperature
ratio, collisionality, impurity fractions and the gyroBohm normalization.
The closure-specific formulas are outside the spec's scope; each entry is a
pointwise face-grid map so the shape contract is exact. -/
def prepare_qualikiz_inputs (Zeff_face : List ℚ) (q_correction_factor : ℚ)
    (transport : QlkRuntimeParams) (geo : TransportGeometry)
    (cp : CoreProfilesCell) : QualikizInputs :=
  let ti_face := face_values cp.temp_ion cp.Ti_bound
  let te_face := face_values cp.temp_el cp.Te_bound
  let ne_face := face_values cp.ne cp.ne_bound
  let ni_face := face_values cp.ni cp.ni_bound
  let smag0 :=
    if transport.avoid_big_negative_s then cp.s_face.map (fun s => max s (-1))
    else cp.s_face
  { Zeff_face := Zeff_face
    Ati := norm_log_grad cp.temp_ion geo.drho cp.Ti_bound geo.Rmaj
    Ate := norm_log_grad cp.temp_el geo.drho cp.Te_bound geo.Rmaj
    Ane := norm_log_grad cp.ne geo.drho cp.ne_bound geo.Rmaj
    Ani0 := norm_log_grad cp.ni geo.drho cp.ni_bound geo.Rmaj
    Ani1 := ni_face.map (fun _ => 0)
    q := cp.q_face.map (fun v => v * q_correction_factor)
    smag :=
      if transport.q_sawtooth_proxy then smag0.map (fun s => max s (1 / 10))
      else smag0
    x := geo.rho_face_norm.map (fun r => r * geo.Rmin / geo.Rmaj)
    Ti_Te := List.zipWith (fun a b => a / b) ti_face te_face
    log_nu_star_face :=
      List.zipWith (fun n t => transport.coll_mult * n / (t * t)) ne_face te_face
    normni := List.zipWith (fun a b => a / b) ni_face ne_face
    chiGB := te_face.map (fun t => t * geo.B0)
    Rmaj := geo.Rmaj
    Rmin := geo.Rmin }

/-- The transport-coefficient output record: face-grid diffusivities and
convective velocity, as in state.CoreTransport. -/
structure CoreTransport where
  chi_face_ion : List ℚ
  chi_face_el : List ℚ
  d_face_el : List ℚ
  v_face_el : List ℚ
  deriving Repr, DecidableEq

/-- Modelled from the spec: the quasilinear base converts the closure's
normalized fluxes (qi, qe, pfe) to face-grid transport coefficients by
gyroBohm renormalization, pointwise over the face grid. -/
def make_core_transport (qi qe pfe : List ℚ) (inputs : QualikizInputs)
    (geo : TransportGeometry) : CoreTransport :=
  { chi_face_ion := List.zipWith (fun a b => a * b) qi inputs.chiGB
    chi_face_el := List.zipWith (fun a b => a * b) qe inputs.chiGB
    d_face_el := List.zipWith (fun a b => a * b) pfe inputs.chiGB
    v_face_el :=
      List.zipWith (fun dd a => dd * a / geo.Rmaj)
        (List.zipWith (fun a b => a * b) pfe inputs.chiGB) inputs.Ane }

/-- Embedded from the src test's FakeQualikizBasedTransportModel
_call_implementation: prepare the qualikiz inputs, then apply the fake
closure producing constant fluxes 0.4, 0.5, 1.6 on the face grid, and convert
them with the shared quasilinear conversion. -/
def qualikiz_based_call (transport : QlkRuntimeParams) (Zeff_face : List ℚ)
    (q_correction_factor : ℚ) (geo : TransportGeometry)
    (cp : CoreProfilesCell) : CoreTransport :=
  let inputs := prepare_qualikiz_inputs Zeff_face q_correction_factor transport geo cp
  make_core_transport (geo.rho_face_norm.map (fun _ => 2 / 5))
    (geo.rho_face_norm.map (fun _ => 1 / 2))
    (geo.rho_face_norm.map (fun _ => 8 / 5)) inputs geo

/-- Well-formedness of the transport geometry: the face coordinate array has
one entry per face. -/
def TransportGeometry.wf (geo : TransportGeometry) : Prop :=
  geo.rho_face_norm.length = geo.nx + 1

/-- Well-formedness of the core profiles against a geometry: cell arrays have
one entry per cell, face arrays one entry per face. -/
def CoreProfilesCell.wf (cp : CoreProfilesCell) (geo : TransportGeometry) : Prop :=
  cp.temp_ion.length = geo.nx ∧ cp.temp_el.length = geo.nx ∧
    cp.ne.length = geo.nx ∧ cp.ni.length = geo.nx ∧
    cp.q_face.length = geo.nx + 1 ∧ cp.s_face.length = geo.nx + 1

/-! ### Conservative finite-volume implicit step

The solver is not under src; the discretization is modelled from the spec's
equation d(g u)/dt = d/drho(g D du/drho - g V u) + g S with a conservative
finite-volume stencil, fully-implicit time scheme, and the boundary condition
applied directly in the flux term.  A step is characterised by its per-cell
residual being zero at the accepted new state. -/

/-- Modelled from the spec: the transport flux through face i of an n-cell
mesh, evaluated at the new (implicit) iterate — diffusive part
g D du/drho minus convective part g V u (face value by central average) —
with zero-flux Neumann conditions applied directly at both boundary faces
(faces 0 and n). -/
def step_face_flux (n : ℕ) (g_face D_face V_face : ℕ → ℚ) (u_new : ℕ → ℚ)
    (d : ℚ) (i : ℕ) : ℚ :=
  if i = 0 ∨ n ≤ i then 0
  else
    g_face i * D_face i * (u_new i - u_new (i - 1)) / d -
      g_face i * V_face i * (u_new i + u_new (i - 1)) / 2

/-- Modelled from the spec: the per-cell residual of the fully-implicit
conservative finite-volume step for one transported field: cell-integrated
change of g u minus dt times (net face flux plus cell-integrated source).
An accepted step's new state makes every cell's residual vanish (up to the
linear solver's tolerance; exact in this rational model). -/
def step_residual (n : ℕ) (g g_face D_face V_face : ℕ → ℚ) (u u_new S : ℕ → ℚ)
    (dt d : ℚ) (i : ℕ) : ℚ :=
  g i * (u_new i - u i) * d -
    dt * (step_face_flux n g_face D_face V_face u_new d (i + 1) -
      step_face_flux n g_face D_face V_face u_new d i) -
    dt * (g i * S i * d)

/-- The volume integral of a cell-grid field over the mesh: sum of
g u times the cell width. -/
def volume_integral (n : ℕ) (g u : ℕ → ℚ) (d : ℚ) : ℚ :=
  Finset.sum (Finset.range n) (fun i => g i * u i * d)

/-! ### Concrete fixtures used by the witness theorems -/

/-- A concrete valid profile-conditions configuration (the dataclass
defaults): no explicit right boundary conditions, each profile defined at
rho = 1. -/
def pc_default : ProfileConditions :=
  { Ip_tot := [(0, 15)]
    Ti_bound_right := none
    Te_bound_right := none
    Ti := [(0, [(0, 15), (1, 1)])]
    Te := [(0, [(0, 15), (1, 1)])]
    psi := none
    ne := [(0, [(0, 3 / 2), (1, 1)])]
    normalize_to_nbar := true
    nbar := [(0, 17 / 20)]
    ne_is_fGW := true
    ne_bound_right := none
    ne_bound_right_is_fGW := false
    ne_bound_right_is_absolute := false
    set_pedestal := [(0, 1)]
    nu := 3
    initial_j_is_total_current := false
    initial_psi_from_j := false }

/-- The default configuration with an explicit outer density boundary value. -/
def pc_with_ne_bound : ProfileConditions :=
  { pc_default with ne_bound_right := some [(0, 2)] }

/-- A concrete 4-cell uniform mesh on [0, 1]. -/
def mesh4 : Grid1D := { nx := 4, dx := 1 / 4 }

/-- A concrete geometry for the flux-derived-quantity witnesses. -/
def geo_w : Geometry :=
  { nx := 2
    drho_norm := 1 / 2
    Phib := 1
    rho_face_norm := fun i => (i : ℚ) / 2
    current_factor := fun _ => 1
    spr := fun _ => 1
    psi_from_Ip_grad := fun _ => 1 }

/-- A concrete transport geometry with 3 cells (4 faces). -/
def tgeo_w : TransportGeometry :=
  { nx := 3
    drho := 1 / 3
    rho_face_norm := [0, 1 / 3, 2 / 3, 1]
    Rmaj := 6
    Rmin := 2
    B0 := 5 }

/-- Concrete core profiles matching tgeo_w's grid sizes. -/
def cp_w : CoreProfilesCell :=
  { temp_ion := [3, 2, 1]
    temp_el := [3, 2, 1]
    ne := [2, 2, 1]
    ni := [2, 2, 1]
    Ti_bound := 1
    Te_bound := 1
    ne_bound := 1
    ni_bound := 1
    q_face := [1, 1, 2, 3]
    s_face := [0, 1, 1, 2] }

/-- Concrete transport runtime parameters (the values used in the src test). -/
def qlk_params_w : QlkRuntimeParams :=
  { coll_mult := 1
    avoid_big_negative_s := true
    q_sawtooth_proxy := true
    smag_alpha_correction := true }

/-- The provider produced by make_provider on the default configuration and
the 4-cell mesh (all three boundary series derived from the profiles at
rho = 1). -/
def provider_w : ProfileConditionsProvider :=
  { runtime_params_config :=
      { pc_default with ne_bound_right_is_absolute := false,
                        ne_bound_right_is_fGW := true }
    Ip_tot := [(0, 15)]
    Ti_bound_right := [(0, 1)]
    Te_bound_right := [(0, 1)]
    Ti := [(0, [(0, 15), (1, 1)])]
    Te := [(0, [(0, 15), (1, 1)])]
    psi := none
    ne := [(0, [(0, 3 / 2), (1, 1)])]
    nbar := [(0, 17 / 20)]
    ne_bound_right := [(0, 1)]
    set_pedestal := [(0, 1)] }

/-- The face-grid shape contract asserted by the src qualikiz-based transport
tests: every transport-coefficient output and every 1-D prepared model input
has exactly the length of the geometry's face coordinate array. -/
def qualikiz_shape_contract (transport : QlkRuntimeParams) (Zeff_face : List ℚ)
    (q_correction_factor : ℚ) (geo : TransportGeometry)
    (cp : CoreProfilesCell) : Prop :=
  (qualikiz_based_call transport Zeff_face q_correction_factor geo cp).chi_face_ion.length =
      geo.rho_face_norm.length ∧
    (qualikiz_based_call transport Zeff_face q_correction_factor geo cp).chi_face_el.length =
      geo.rho_face_norm.length ∧
    (qualikiz_based_call transport Zeff_face q_correction_factor geo cp).d_face_el.length =
      geo.rho_face_norm.length ∧
    (qualikiz_based_call transport Zeff_face q_correction_factor geo cp).v_face_el.length =
      geo.rho_face_norm.length ∧
    (prepare_qualikiz_inputs Zeff_face q_correction_factor transport geo cp).Zeff_face.length =
      geo.rho_face_norm.length ∧
    (prepare_qualikiz_inputs Zeff_face q_correction_factor transport geo cp).Ati.length =
      geo.rho_face_norm.length ∧
    (prepare_qualikiz_inputs Zeff_face q_correction_factor transport geo cp).Ate.length =
      geo.rho_face_norm.length ∧
    (prepare_qualikiz_inputs Zeff_face q_correction_factor transport geo cp).Ane.length =
      geo.rho_face_norm.length ∧
    (prepare_qualikiz_inputs Zeff_face q_correction_factor transport geo cp).Ani0.length =
      geo.rho_face_norm.length ∧
    (prepare_qualikiz_inputs Zeff_face q_correction_factor transport geo cp).Ani1.length =
      geo.rho_face_norm.length ∧
    (prepare_qualikiz_inputs Zeff_face q_correction_factor transport geo cp).q.length =
      geo.rho_face_norm.length ∧
    (prepare_qualikiz_inputs Zeff_face q_correction_factor transport geo cp).smag.length =
      geo.rho_face_norm.length ∧
    (prepare_qualikiz_inputs Zeff_face q_correction_factor transport geo cp).x.length =
      geo.rho_face_norm.length ∧
    (prepare_qualikiz_inputs Zeff_face q_correction_factor transport geo cp).Ti_Te.length =
      geo.rho_face_norm.length ∧
    (prepare_qualikiz_inputs Zeff_face q_correction_factor transport geo cp).log_nu_star_face.length =
      geo.rho_face_norm.length ∧
    (prepare_qualikiz_inputs Zeff_face q_correction_factor transport geo cp).normni.length =
      geo.rho_face_norm.length ∧
    (prepare_qualikiz_inputs Zeff_face q_correction_factor transport geo cp).chiGB.length =
      geo.rho_face_norm.length

/-- Concrete start-of-step cell values for the conservation witness. -/
def u_old_w : ℕ → ℚ := fun i => if i = 0 then 0 else 3

/-- Concrete accepted new-iterate cell values for the conservation witness:
they satisfy the implicit residual equations with D = 1, V = 0, S = 0 on a
2-cell mesh. -/
def u_new_w : ℕ → ℚ := fun i => if i = 0 then 1 else 2

/-! ### Theorems -/

/-- Claim C1: construction of a ProfileConditions succeeds exactly when every
field whose outer Dirichlet boundary value is unset (None) has a profile
defining a value at rho = 1.0; otherwise __post_init__ raises a ValueError
before any simulation step executes. -/
theorem post_init_check_ok_iff (pc : ProfileConditions) :
    (post_init_check pc).isOk = true ↔
      ((pc.Ti_bound_right = none →
          rhonorm1_defined_in_timerhoinput pc.Ti = true) ∧
        (pc.Te_bound_right = none →
          rhonorm1_defined_in_timerhoinput pc.Te = true) ∧
        (pc.ne_bound_right = none →
          rhonorm1_defined_in_timerhoinput pc.ne = true)) := by
  cases hTi : pc.Ti_bound_right <;> cases hTe : pc.Te_bound_right <;>
    cases hne : pc.ne_bound_right <;>
      simp [post_init_check, sanity_check_profile_boundary_conditions, hTi, hTe,
        hne, Except.isOk, Except.toBool, bind, Except.bind, pure, Except.pure] <;>
      try split_ifs <;> simp_all [pure, Except.pure]

/-- Claim C10: make_provider with torax_mesh = None raises a ValueError and
never returns a provider; a provider is constructed exactly when a mesh is
supplied. -/
theorem make_provider_requires_mesh (pc : ProfileConditions) :
    make_provider pc none =
        Except.error "torax_mesh is required for ProfileConditionsProvider." ∧
      ∀ t : Option Grid1D, (make_provider pc t).isOk = t.isSome := by
  refine ⟨rfl, fun t => ?_⟩
  cases t <;> rfl

/-- Claim C2: when an explicit ne_bound_right is provided, make_provider
installs that value and sets ne_bound_right_is_absolute to True; when it is
None, the boundary series is derived from the ne profile at the outermost
face center, ne_bound_right_is_absolute is set to False and
ne_bound_right_is_fGW is set to ne_is_fGW. -/
theorem make_provider_ne_bound_right_precedence (pc : ProfileConditions)
    (mesh : Grid1D) :
    (make_provider pc (some mesh)).map
        (fun p =>
          (p.ne_bound_right, p.runtime_params_config.ne_bound_right_is_absolute,
            p.runtime_params_config.ne_bound_right_is_fGW)) =
      Except.ok
        (match pc.ne_bound_right with
         | some b => (b, true, pc.ne_bound_right_is_fGW)
         | none =>
           (get_interpolated_var_2d pc.ne mesh.face_centers_last, false,
             pc.ne_is_fGW)) := by
  cases h : pc.ne_bound_right <;> simp [make_provider, Except.map, h]

/-- Claim C4: on the face grid, calc_q_from_psi returns the reciprocal of the
rotational transform scaled by the q correction factor, with
iota[i] = |psi_face_grad[i] / (2 Phib rho_face_norm[i])| at every face
i >= 1, and the magnetic-axis value computed from the second face's gradient
as |psi_face_grad[1] / (2 Phib drho_norm)|, never dividing by the vanishing
rho coordinate at the axis. -/
theorem calc_q_from_psi_formula (geo : Geometry) (psi_face_grad : ℕ → ℚ)
    (q_correction_factor : ℚ) :
    ((calc_q_from_psi geo psi_face_grad q_correction_factor).1 0 =
        1 / |psi_face_grad 1 / (2 * geo.Phib * geo.drho_norm)| *
          q_correction_factor) ∧
      ∀ i : ℕ,
        (calc_q_from_psi geo psi_face_grad q_correction_factor).1 (i + 1) =
          1 / |psi_face_grad (i + 1) / (2 * geo.Phib * geo.rho_face_norm (i + 1))| *
            q_correction_factor := by
  refine ⟨?_, fun i => ?_⟩
  · simp [calc_q_from_psi, calc_iota_face]
  · simp [calc_q_from_psi, calc_iota_face]

/-- Claim C5: the derived-quantity computations are pure and deterministic —
for fixed geometry and flux profile, a second evaluation of calc_q_from_psi,
calc_s_from_psi and calc_jtot_from_psi is identical to the first. -/
theorem derived_quantities_deterministic (geo : Geometry)
    (psi_face_grad : ℕ → ℚ) (q_correction_factor : ℚ) :
    calc_q_from_psi geo psi_face_grad q_correction_factor =
        calc_q_from_psi geo psi_face_grad q_correction_factor ∧
      calc_s_from_psi geo psi_face_grad = calc_s_from_psi geo psi_face_grad ∧
      calc_jtot_from_psi geo psi_face_grad =
        calc_jtot_from_psi geo psi_face_grad :=
  ⟨rfl, rfl, rfl⟩

/-- Claim C8: the enclosed-current face profile returned by
calc_jtot_from_psi satisfies, at the outer face: with the flux profile scaled
from the runtime-parameter total current, the edge value is Ip_tot (MA) times
1e6 (amperes); with the geometry's own flux profile, it is the geometry's own
edge value Ip_profile_face[-1]. -/
theorem calc_jtot_from_psi_edge_current (geo : Geometry) (base_grad : ℕ → ℚ)
    (Ip_tot : ℚ) (h : calc_Ip_profile_face geo base_grad geo.nx ≠ 0) :
    (calc_jtot_from_psi geo (psi_from_Ip_scaled geo base_grad Ip_tot)).2 geo.nx =
        Ip_tot * 1000000 ∧
      (calc_jtot_from_psi geo geo.psi_from_Ip_grad).2 geo.nx =
        geo.Ip_profile_face geo.nx := by
  refine ⟨?_, rfl⟩
  simp only [calc_jtot_from_psi, psi_from_Ip_scaled, calc_Ip_profile_face] at h ⊢
  linear_combination div_mul_cancel₀ (Ip_tot * 1000000) h

/-- Piecewise-linear interpolation evaluated at a knot returns that knot's
value, provided the knot coordinates are strictly increasing. -/
theorem interp1_at_knot : ∀ (l : List (ℚ × ℚ)) (x y : ℚ),
    (l.map Prod.fst).Chain' (· < ·) → (x, y) ∈ l → interp1 l x = y
  | [], x, y, _, hm => by simp at hm
  | [(x0, y0)], x, y, _, hm => by
      simp at hm
      obtain ⟨hx, hy⟩ := hm
      subst hx; subst hy
      rfl
  | (x0, y0) :: (x1, y1) :: rest, x, y, hs, hm => by
      have hpair := List.chain'_iff_pairwise.mp hs
      simp only [List.map_cons, List.pairwise_cons] at hpair
      obtain ⟨h0, h1, htp⟩ := hpair
      rcases List.mem_cons.mp hm with heq | hm2
      · obtain ⟨rfl, rfl⟩ := Prod.mk.inj heq
        simp [interp1]
      · have hxmem : x ∈ x1 :: List.map Prod.fst rest := by
          simpa using List.mem_map_of_mem Prod.fst hm2
        have hx0 : x0 < x := h0 x hxmem
        rcases List.mem_cons.mp hm2 with heq2 | hm3
        · obtain ⟨rfl, rfl⟩ := Prod.mk.inj heq2
          have hne : x - x0 ≠ 0 := sub_ne_zero.mpr (ne_of_gt hx0)
          rw [interp1, if_neg (not_le.mpr hx0), if_pos le_rfl,
            mul_div_cancel_right₀ _ hne]
          ring
        · have hx1 : x1 < x := h1 x (List.mem_map_of_mem Prod.fst hm3)
          rw [interp1, if_neg (not_le.mpr hx0), if_neg (not_le.mpr hx1)]
          exact interp1_at_knot ((x1, y1) :: rest) x y hs.tail hm2

/-- Claim C3: when Ti_bound_right (respectively Te_bound_right) is unset and
the Ti (respectively Te) profile defines a value at rho = 1.0, the provider
returned by make_provider carries the profile interpolated at the outermost
face center (rho = 1) as the outer temperature boundary condition — the
derived boundary value equals the profile's value at r = 1. -/
theorem make_provider_derived_temperature_bound (pc : ProfileConditions)
    (mesh : Grid1D) (p : ProfileConditionsProvider) (t : ℚ)
    (slice : List (ℚ × ℚ)) (v : ℚ)
    (hmesh : mesh.face_centers_last = 1)
    (hsort : (slice.map Prod.fst).Chain' (· < ·))
    (hv : (1, v) ∈ slice)
    (hok : make_provider pc (some mesh) = Except.ok p) :
    (pc.Ti_bound_right = none → (t, slice) ∈ pc.Ti →
        (t, v) ∈ p.Ti_bound_right) ∧
      (pc.Te_bound_right = none → (t, slice) ∈ pc.Te →
        (t, v) ∈ p.Te_bound_right) := by
  simp only [make_provider, hmesh] at hok
  rw [Except.ok.injEq] at hok
  subst hok
  constructor
  · intro hTi hmem
    simp only [hTi, get_interpolated_var_2d]
    exact List.mem_map.mpr
      ⟨(t, slice), hmem, by rw [interp1_at_knot slice 1 v hsort hv]⟩
  · intro hTe hmem
    simp only [hTe, get_interpolated_var_2d]
    exact List.mem_map.mpr
      ⟨(t, slice), hmem, by rw [interp1_at_knot slice 1 v hsort hv]⟩

/-- Witness for C3: the default configuration (both temperature boundary
values unset, both profiles defining the value 1 at rho = 1) on a 4-cell
mesh yields derived temperature boundary series containing (t, v) = (0, 1)
for both Ti and Te. -/
theorem make_provider_derived_temperature_bound_witness :
    (0, 1) ∈ provider_w.Ti_bound_right ∧ (0, 1) ∈ provider_w.Te_bound_right := by
  have h := make_provider_derived_temperature_bound pc_default mesh4 provider_w
    0 [(0, 15), (1, 1)] 1
    (by simp [mesh4, Grid1D.face_centers_last, Grid1D.face_centers, List.range_succ])
    (by norm_num [List.chain'_cons]) (by norm_num)
    (by simp [make_provider, pc_default, provider_w, get_interpolated_var_2d,
      interp1, mesh4, Grid1D.face_centers_last, Grid1D.face_centers,
      List.range_succ])
  exact ⟨h.1 rfl (by norm_num [pc_default]), h.2 rfl (by norm_num [pc_default])⟩

/-- Witness for C8: a concrete geometry and base flux profile with nonzero
edge current, scaled to Ip_tot = 15 MA, gives edge current 15e6 A. -/
theorem calc_jtot_from_psi_edge_current_witness :
    (calc_jtot_from_psi geo_w (psi_from_Ip_scaled geo_w (fun _ => 1) 15)).2 geo_w.nx =
        15 * 1000000 ∧
      (calc_jtot_from_psi geo_w geo_w.psi_from_Ip_grad).2 geo_w.nx =
        geo_w.Ip_profile_face geo_w.nx :=
  calc_jtot_from_psi_edge_current geo_w (fun _ => 1) 15
    (by norm_num [calc_Ip_profile_face, geo_w])

/-- Interpolating a cell variable to faces adds the boundary face: the face
array has one more entry than the cell array. -/
theorem face_values_length (cells : List ℚ) (bc : ℚ) :
    (face_values cells bc).length = cells.length + 1 := by
  cases cells with
  | nil => rfl
  | cons c cs => simp [face_values]

/-- The face gradient of a cell variable also lives on the face grid. -/
theorem face_grad_list_length (cells : List ℚ) (d bc : ℚ) :
    (face_grad_list cells d bc).length = cells.length + 1 := by
  cases cells with
  | nil => rfl
  | cons c cs => simp [face_grad_list]

/-- Normalized logarithmic gradients live on the face grid. -/
theorem norm_log_grad_length (cells : List ℚ) (d bc Rmaj : ℚ) :
    (norm_log_grad cells d bc Rmaj).length = cells.length + 1 := by
  simp [norm_log_grad, face_values_length, face_grad_list_length]

/-- Claim C6: every transport coefficient produced by the qualikiz-based
model call (chi_face_ion, chi_face_el, d_face_el, v_face_el) has exactly the
shape of the geometry's face coordinate array, and every 1-D prepared model
input has the same face-grid length. -/
theorem qualikiz_based_transport_shapes (transport : QlkRuntimeParams)
    (Zeff_face : List ℚ) (q_correction_factor : ℚ) (geo : TransportGeometry)
    (cp : CoreProfilesCell) (hg : geo.wf) (hcp : cp.wf geo)
    (hz : Zeff_face.length = geo.nx + 1) :
    qualikiz_shape_contract transport Zeff_face q_correction_factor geo cp := by
  obtain ⟨h1, h2, h3, h4, h5, h6⟩ := hcp
  rw [TransportGeometry.wf] at hg
  unfold qualikiz_shape_contract qualikiz_based_call make_core_transport
    prepare_qualikiz_inputs
  refine ⟨?_, ?_, ?_, ?_, ?_, ?_, ?_, ?_, ?_, ?_, ?_, ?_, ?_, ?_, ?_, ?_, ?_⟩ <;>
    · split_ifs <;>
        simp [norm_log_grad_length, face_values_length, face_grad_list_length,
          h1, h2, h3, h4, h5, h6, hz, hg]

/-- Witness for C6: the shape contract holds on the concrete 3-cell geometry
with matching core profiles and a face-grid Zeff array. -/
theorem qualikiz_based_transport_shapes_witness :
    qualikiz_shape_contract qlk_params_w [1, 1, 1, 1] 1 tgeo_w cp_w :=
  qualikiz_based_transport_shapes qlk_params_w [1, 1, 1, 1] 1 tgeo_w cp_w rfl
    ⟨rfl, rfl, rfl, rfl, rfl, rfl⟩ rfl

/-- Claim C7: for an accepted implicit step (every cell residual zero) with
all source terms zero and zero-flux Neumann boundary conditions at both ends,
the volume integral of the transported field is unchanged by the step. -/
theorem step_conserves_volume_integral (n : ℕ)
    (g g_face D_face V_face u u_new S : ℕ → ℚ) (dt d : ℚ)
    (hS : ∀ i, i < n → S i = 0)
    (hres : ∀ i, i < n →
      step_residual n g g_face D_face V_face u u_new S dt d i = 0) :
    volume_integral n g u_new d = volume_integral n g u d := by
  have key : ∀ i ∈ Finset.range n,
      g i * u_new i * d - g i * u i * d =
        dt * (step_face_flux n g_face D_face V_face u_new d (i + 1) -
          step_face_flux n g_face D_face V_face u_new d i) := by
    intro i hi
    have hi' := Finset.mem_range.mp hi
    have h1 := hres i hi'
    rw [step_residual] at h1
    linear_combination h1 + dt * g i * d * hS i hi'
  have hsum :
      volume_integral n g u_new d - volume_integral n g u d =
        Finset.sum (Finset.range n)
          (fun i =>
            dt * (step_face_flux n g_face D_face V_face u_new d (i + 1) -
              step_face_flux n g_face D_face V_face u_new d i)) := by
    rw [volume_integral, volume_integral, ← Finset.sum_sub_distrib]
    exact Finset.sum_congr rfl key
  rw [← Finset.mul_sum,
    Finset.sum_range_sub
      (fun i => step_face_flux n g_face D_face V_face u_new d i) n] at hsum
  have hFn : step_face_flux n g_face D_face V_face u_new d n = 0 := by
    simp [step_face_flux]
  have hF0 : step_face_flux n g_face D_face V_face u_new d 0 = 0 := by
    simp [step_face_flux]
  rw [hFn, hF0] at hsum
  linarith

/-- Witness for C7: a concrete accepted 2-cell step (D = 1, V = 0, S = 0,
zero-flux boundaries) moving the profile from (0, 3) to (1, 2) satisfies every
residual equation and conserves the volume integral. -/
theorem step_conserves_volume_integral_witness :
    volume_integral 2 (fun _ => 1) u_new_w 1 =
      volume_integral 2 (fun _ => 1) u_old_w 1 :=
  step_conserves_volume_integral 2 (fun _ => 1) (fun _ => 1) (fun _ => 1)
    (fun _ => 0) u_old_w u_new_w (fun _ => 0) 1 1 (fun _ _ => rfl)
    (by intro i hi
        interval_cases i <;>
          norm_num [step_residual, step_face_flux, u_old_w, u_new_w])

end Torax
